import Mathlib

/-!
# Verification of the comsync task-session coordination core

Shallow embedding of `lib/index.ts` (the current variant: classes
`InterruptError`, `NoChannelError`, `SyncClient` with states
`idle | running | awaitingMessage | sleeping`, and the worker-side wrapper
`syncExpose`).  Asynchronous methods are embedded as explicit step
functions on a controller-state record; externally observable operations
(channel writes, status notifications, worker lifecycle calls) are
recorded as lists of effects in program order.
-/

namespace Comsync

/-- Model of a JavaScript value as passed through the channel and as a task
result (`any` in the source). -/
inductive JsValue where
  | num : Rat → JsValue
  | str : String → JsValue
  | bool : Bool → JsValue
  | undef : JsValue
  deriving DecidableEq

/-- Model of a JavaScript `number` argument, sufficient to embed the
`!(ms > 0)` guard of `extras.syncSleep`: `NaN` compares false. -/
inductive JsNum where
  | nan : JsNum
  | val : Rat → JsNum
  deriving DecidableEq

/-- Embeds the JS comparison `ms > 0` (false for `NaN`). -/
def JsNum.gtZero : JsNum → Bool
  | .nan => false
  | .val x => decide (0 < x)

/-- The `{timeout: ms}` options object built by `syncSleep`. -/
def JsNum.timeoutOpt : JsNum → Option Rat
  | .nan => none
  | .val x => some x

/-- The four controller-observed task states, from the union type of
`SyncClient.state`. -/
inductive TaskState where
  | idle
  | running
  | awaitingMessage
  | sleeping
  deriving DecidableEq

/-- The string literal each state is stored as in the source. -/
def stateName : TaskState → String
  | .idle => "idle"
  | .running => "running"
  | .awaitingMessage => "awaitingMessage"
  | .sleeping => "sleeping"

/-- `SyncMessageCallbackStatus` from the source. -/
inductive Status where
  | init
  | reading
  | sleeping
  | slept
  deriving DecidableEq

/-- The `"reading" | "sleeping"` union accepted by `fullSyncMessageCallback`. -/
inductive BlockingStatus where
  | reading
  | sleeping
  deriving DecidableEq

def BlockingStatus.toStatus : BlockingStatus → Status
  | .reading => .reading
  | .sleeping => .sleeping

/-- The classes of `Error` values raised by the source: plain `new Error`
usage errors, `InterruptError`, `NoChannelError`. -/
inductive ErrClass where
  | plainError
  | interruptError
  | noChannelError
  deriving DecidableEq

/-- An `Error` object: its class plus its `message`. -/
structure JsError where
  cls : ErrClass
  message : String
  deriving DecidableEq

/-- The readonly `type` property: `InterruptError` and `NoChannelError`
each declare `public readonly type = "<class name>"`; a plain `Error` has
no such property (`undefined`, modelled as `none`). -/
def JsError.type : JsError → Option String
  | ⟨.interruptError, _⟩ => some "InterruptError"
  | ⟨.noChannelError, _⟩ => some "NoChannelError"
  | ⟨.plainError, _⟩ => none

/-- `ExchangePayload`: the object written over the channel, destructured by
the worker as `{message, interrupted}`.  `{interrupted: true}` has
`message = none`; `{message}` has `interrupted = false` (absent). -/
structure Payload where
  message : Option JsValue
  interrupted : Bool
  deriving DecidableEq

/-- Fuel-driven decimal-digit accumulator (structural recursion so that the
kernel can evaluate it); the fuel is always at least the number. -/
def natDigitsAux : Nat → Nat → List Nat
  | 0, n => [n % 10]
  | fuel + 1, n => if n < 10 then [n] else natDigitsAux fuel (n / 10) ++ [n % 10]

/-- Decimal digits of a natural number, most significant first; models the
rendering of the sequence number inside the template literal of
`makeMessageId`. -/
def natDigits (n : Nat) : List Nat :=
  natDigitsAux n n

/-- Decimal string rendering of a natural number (JS `${seq}`). -/
def natRepr (n : Nat) : String :=
  ⟨(natDigits n).map Nat.digitChar⟩

/-- JS template-literal coercion of a possibly-deleted string field. -/
def strCoe : Option String → String
  | none => "undefined"
  | some s => s

/-- JS truthiness of a possibly-deleted string field (`!this._messageIdBase`
is true for both `""` and `undefined`). -/
def truthyStr : Option String → Bool
  | none => false
  | some s => !s.isEmpty

/-- `makeMessageId(base, seq)`: the template literal `` `${base}-${seq}` ``. -/
def makeMessageId (base : String) (seq : Nat) : String :=
  base ++ "-" ++ natRepr seq

/-- Externally observable controller actions, in program order. -/
inductive Effect where
  | channelWrite : String → Payload → Effect
  | callInterrupter : Effect
  | rejectInFlight : JsError → Effect
  | releaseProxy : Effect
  | terminateWorker : Effect
  | spawnWorker : Effect
  | releaseQueuedWrite : Effect
  deriving DecidableEq

/-- The mutable fields of a `SyncClient` instance.  Optional/deletable
fields are `Option`s or `Bool` presence flags; the worker and proxy handles
are identified by a generation number so that replacement is observable. -/
structure SyncClient where
  interrupter : Bool
  state : TaskState
  worker : Option Nat
  workerProxy : Option Nat
  interruptRejector : Bool
  interruptPromise : Bool
  messageIdBase : Option String
  messageIdSeq : Nat
  awaitingMessageResolve : Bool
  channel : Bool
  workerGen : Nat
  deriving DecidableEq

namespace SyncClient

/-- `SyncClient._writeMessage(message)`: sets `state = "running"`, then
writes the payload on `makeMessageId(this._messageIdBase, this._messageIdSeq)`. -/
def writeMessagePriv (c : SyncClient) (p : Payload) : SyncClient × Effect :=
  ({c with state := .running},
   .channelWrite (makeMessageId (strCoe c.messageIdBase) c.messageIdSeq) p)

/-- `SyncClient.terminate()`: rejects the in-flight interrupt promise (if a
rejector is installed) with `new InterruptError("Worker terminated")`,
releases the proxy, terminates the worker, deletes both handles. -/
def terminate (c : SyncClient) : SyncClient × List Effect :=
  ({c with worker := none, workerProxy := none},
   (if c.interruptRejector then [Effect.rejectInFlight ⟨.interruptError, "Worker terminated"⟩]
    else [])
     ++ [Effect.releaseProxy, Effect.terminateWorker])

/-- `SyncClient._reset()`: state to idle, deletes `_interruptPromise`,
`_interruptRejector`, `_awaitingMessageResolve`, `_messageIdBase`. -/
def reset (c : SyncClient) : SyncClient :=
  {c with state := .idle, interruptPromise := false, interruptRejector := false,
          awaitingMessageResolve := false, messageIdBase := none}

/-- `SyncClient._start()`: `_reset()` then create a fresh worker and wrap a
fresh proxy around it. -/
def start (c : SyncClient) : SyncClient × List Effect :=
  let c' := c.reset
  ({c' with worker := some (c.workerGen + 1), workerProxy := some (c.workerGen + 1),
            workerGen := c.workerGen + 1},
   [Effect.spawnWorker])

/-- `SyncClient.interrupt()`: the three-tier escalation with the idle
no-op first. -/
def interrupt (c : SyncClient) : SyncClient × List Effect :=
  if c.state = .idle then (c, [])
  else if c.state = .awaitingMessage ∨ c.state = .sleeping then
    let r := c.writeMessagePriv ⟨none, true⟩
    (r.1, [r.2])
  else if c.interrupter then (c, [Effect.callInterrupter])
  else
    let t := c.terminate
    let s := t.1.start
    (s.1, t.2 ++ s.2)

/-- The synchronous prefix of `SyncClient.call`: the idle precondition
check, then `state = "running"`, fresh `_messageIdBase` (the `uuidv4()`
value is a parameter), `_messageIdSeq = 0`, and installation of the
interrupt promise and its rejector. -/
def callStart (c : SyncClient) (base : String) : SyncClient × Option JsError :=
  if c.state ≠ .idle then
    (c, some ⟨.plainError, "State is " ++ stateName c.state ++ ", not idle"⟩)
  else
    ({c with state := .running, messageIdBase := some base, messageIdSeq := 0,
             interruptPromise := true, interruptRejector := true},
     none)

/-- How the `Promise.race` in `SyncClient.call` settles: the proxied task
resolves or rejects, or the interrupt promise rejects first. -/
inductive RaceOutcome where
  | taskValue : JsValue → RaceOutcome
  | taskError : JsError → RaceOutcome
  | interruptReject : JsError → RaceOutcome
  deriving DecidableEq

/-- The settlement of `SyncClient.call`: whatever won the race is returned
or rethrown, and the `finally` block runs `_reset()` (and clears the
session's `runningThisTask` flag, modelled at the callback's call sites). -/
def callSettle (c : SyncClient) (o : RaceOutcome) : SyncClient × Except JsError JsValue :=
  (c.reset,
   match o with
   | .taskValue v => .ok v
   | .taskError e => .error e
   | .interruptReject e => .error e)

/-- The status callback closed over by `SyncClient.call`
(`syncMessageCallback`).  `runningThisTask` is the closure flag of the
session the callback belongs to: it is `false` exactly when the
notification belongs to a session other than the currently active one. -/
def syncMessageCallback (runningThisTask : Bool) (c : SyncClient) (status : Status) :
    SyncClient × List Effect :=
  if runningThisTask = false ∨ status = .init then (c, [])
  else
    match status with
    | .reading =>
        ({c with state := .awaitingMessage, messageIdSeq := c.messageIdSeq + 1},
         if c.awaitingMessageResolve then [Effect.releaseQueuedWrite] else [])
    | .sleeping =>
        ({c with state := .sleeping, messageIdSeq := c.messageIdSeq + 1}, [])
    | .slept =>
        ({c with state := .running}, [])
    | .init => (c, [])

/-- Result of one activation of `SyncClient.writeMessage`. -/
inductive WriteStep where
  | usageError : JsError → WriteStep
  | suspend : SyncClient → WriteStep
  | wrote : SyncClient → Effect → WriteStep
  deriving DecidableEq

/-- `SyncClient.writeMessage(message)` up to its first suspension point:
fails on `state === "idle" || !this._messageIdBase`; if not yet
`awaitingMessage`, fails when a writer is already queued, else queues
itself; otherwise delivers via `_writeMessage({message})`. -/
def writeMessage (c : SyncClient) (m : JsValue) : WriteStep :=
  if c.state = .idle ∨ truthyStr c.messageIdBase = false then
    .usageError ⟨.plainError, "No active call to send a message to."⟩
  else if c.state ≠ .awaitingMessage then
    if c.awaitingMessageResolve then
      .usageError ⟨.plainError, "Not waiting for message, and another write is already queued."⟩
    else
      .suspend {c with awaitingMessageResolve := true}
  else
    let r := c.writeMessagePriv ⟨some m, false⟩
    .wrote r.1 r.2

/-- The continuation of a queued `writeMessage` once the awaited promise is
resolved: deletes `_awaitingMessageResolve` then runs
`_writeMessage({message})`. -/
def writeMessageResume (c : SyncClient) (m : JsValue) : SyncClient × Effect :=
  writeMessagePriv {c with awaitingMessageResolve := false} ⟨some m, false⟩

end SyncClient

/-! ## Worker side: `syncExpose` -/

/-- The session-local state of the closure created by one invocation of the
function returned by `syncExpose`: the `messageIdBase` received from the
controller and the private `messageIdSeq` counter (initially 0). -/
structure WorkerSession where
  messageIdBase : String
  messageIdSeq : Nat
  deriving DecidableEq

/-- Externally observable worker actions, in program order: a
`syncMessageCallback(status)` notification, or the issuance of the blocking
`readMessage(channel, messageId, options)` call with its optional timeout. -/
inductive WorkerEffect where
  | notify : Status → WorkerEffect
  | chanRead : String → Option Rat → WorkerEffect
  deriving DecidableEq

/-- `fullSyncMessageCallback(status, options)` from `syncExpose`.  The value
the external blocking `readMessage` returned is the parameter `resp`
(`none` models a timeout / no value).  Returns the updated session, the
effects in program order, and the result (`Except` for a thrown error;
`Option JsValue` because the JS function can return `undefined`). -/
def fullSyncMessageCallback (channel : Bool) (ws : WorkerSession) (status : BlockingStatus)
    (options : Option Rat) (resp : Option Payload) :
    WorkerSession × List WorkerEffect × Except JsError (Option JsValue) :=
  if channel = false then (ws, [], .error ⟨.noChannelError, ""⟩)
  else
    let seq := ws.messageIdSeq + 1
    let messageId := makeMessageId ws.messageIdBase seq
    let ws' : WorkerSession := ⟨ws.messageIdBase, seq⟩
    let effs := [WorkerEffect.notify status.toStatus, WorkerEffect.chanRead messageId options]
    match resp with
    | some r =>
      if r.interrupted then (ws', effs, .error ⟨.interruptError, ""⟩)
      else (ws', effs, .ok r.message)
    | none =>
      if status = .sleeping then (ws', effs ++ [WorkerEffect.notify .slept], .ok none)
      else (ws', effs, .ok none)

/-- `extras.readMessage()`: `fullSyncMessageCallback("reading")` with no
options, hence no timeout. -/
def readMessageExtra (channel : Bool) (ws : WorkerSession) (resp : Option Payload) :
    WorkerSession × List WorkerEffect × Except JsError (Option JsValue) :=
  fullSyncMessageCallback channel ws .reading none resp

/-- `extras.syncSleep(ms)`: no-op unless `ms > 0`, else
`fullSyncMessageCallback("sleeping", {timeout: ms})`, return value
discarded (`void`). -/
def syncSleep (channel : Bool) (ws : WorkerSession) (ms : JsNum) (resp : Option Payload) :
    WorkerSession × List WorkerEffect × Except JsError Unit :=
  if ms.gtZero = false then (ws, [], .ok ())
  else
    let r := fullSyncMessageCallback channel ws .sleeping ms.timeoutOpt resp
    (r.1, r.2.1, r.2.2.map fun _ => ())

/-! ## Session traces, for the correlation-id invariant -/

/-- The external inputs to one blocking exchange made by the worker: which
kind it is, the options passed, and what the channel read returned. -/
structure BlockRequest where
  status : BlockingStatus
  options : Option Rat
  resp : Option Payload
  deriving DecidableEq

/-- The correlation ids a list of worker effects blocks on. -/
def chanReadIds (l : List WorkerEffect) : List String :=
  l.filterMap fun e => match e with
    | .chanRead id _ => some id
    | _ => none

/-- Runs a sequence of blocking exchanges through
`fullSyncMessageCallback` (with a configured channel), collecting the
correlation ids the worker blocks on. -/
def workerRun : WorkerSession → List BlockRequest → WorkerSession × List String
  | ws, [] => (ws, [])
  | ws, r :: rs =>
    let step := fullSyncMessageCallback true ws r.status r.options r.resp
    let rest := workerRun step.1 rs
    (rest.1, chanReadIds step.2.1 ++ rest.2)

/-- Folds a list of status notifications of the active session through the
controller's status callback, keeping only the state. -/
def controllerNotify (c : SyncClient) (l : List Status) : SyncClient :=
  l.foldl (fun c s => (SyncClient.syncMessageCallback true c s).1) c

/-! ## Sample controller states, used by the witnesses -/

/-- An idle controller, as right after construction followed by a settled
task: no session fields set. -/
def sampleIdle : SyncClient :=
  ⟨false, .idle, some 1, some 1, false, false, none, 0, false, true, 1⟩

/-- A controller whose worker is blocked in a read (one `reading`
notification processed in the current session with base `"b"`). -/
def sampleAwaiting : SyncClient :=
  ⟨false, .awaitingMessage, some 1, some 1, true, true, some "b", 1, false, true, 1⟩

/-- A controller whose worker is blocked in a timed sleep. -/
def sampleSleeping : SyncClient :=
  ⟨false, .sleeping, some 1, some 1, true, true, some "b", 1, false, true, 1⟩

/-- A controller running a task, with a user-supplied interrupter installed. -/
def sampleRunningInterrupter : SyncClient :=
  ⟨true, .running, some 1, some 1, true, true, some "b", 0, false, true, 1⟩

/-- A controller running a task, with no interrupter installed. -/
def sampleRunningPlain : SyncClient :=
  ⟨false, .running, some 1, some 1, true, true, some "b", 0, false, true, 1⟩

/-- A concrete two-exchange worker trace: a read that receives a message,
then a timed sleep that times out. -/
def sampleRequests : List BlockRequest :=
  [⟨.reading, none, some ⟨some (.num 10), false⟩⟩, ⟨.sleeping, some 5, none⟩]

/-! ## Correlation-id helper lemmas -/

theorem natDigitsAux_irrel : ∀ (f₁ f₂ n : Nat), n ≤ f₁ → n ≤ f₂ →
    natDigitsAux f₁ n = natDigitsAux f₂ n := by
  intro f₁
  induction f₁ with
  | zero =>
    intro f₂ n h₁ _
    have hn : n = 0 := by omega
    subst hn
    cases f₂ <;> simp [natDigitsAux]
  | succ g ih =>
    intro f₂ n h₁ h₂
    cases f₂ with
    | zero =>
      have hn : n = 0 := by omega
      subst hn
      simp [natDigitsAux]
    | succ g₂ =>
      simp only [natDigitsAux]
      by_cases h : n < 10
      · simp [h]
      · simp only [h, if_false]
        have hlt : n / 10 < n := Nat.div_lt_self (by omega) (by omega)
        have hd : n / 10 ≤ g := by omega
        have hd₂ : n / 10 ≤ g₂ := by omega
        rw [ih g₂ (n / 10) hd hd₂]

theorem natDigits_small {n : Nat} (h : n < 10) : natDigits n = [n] := by
  unfold natDigits
  cases n with
  | zero => simp [natDigitsAux]
  | succ m => simp [natDigitsAux, h]

theorem natDigits_large {n : Nat} (h : ¬ n < 10) :
    natDigits n = natDigits (n / 10) ++ [n % 10] := by
  unfold natDigits
  have hn : n = (n - 1) + 1 := by omega
  rw [hn]
  simp only [natDigitsAux]
  rw [← hn]
  simp only [h, if_false]
  have hlt : n / 10 < n := Nat.div_lt_self (by omega) (by omega)
  have hd : n / 10 ≤ n - 1 := by omega
  rw [natDigitsAux_irrel (n - 1) (n / 10) (n / 10) hd (Nat.le_refl _)]

theorem natDigits_ne_nil (n : Nat) : natDigits n ≠ [] := by
  by_cases h : n < 10
  · rw [natDigits_small h]; simp
  · rw [natDigits_large h]; simp

theorem natDigits_lt (n : Nat) : ∀ d ∈ natDigits n, d < 10 := by
  induction n using Nat.strong_induction_on with
  | _ n ih =>
    by_cases h : n < 10
    · rw [natDigits_small h]; intro d hd; simp at hd; omega
    · rw [natDigits_large h]
      intro d hd
      rcases List.mem_append.1 hd with hd | hd
      · exact ih (n / 10) (Nat.div_lt_self (by omega) (by omega)) d hd
      · simp at hd; omega

theorem natDigits_inj : ∀ {m n : Nat}, natDigits m = natDigits n → m = n := by
  intro m
  induction m using Nat.strong_induction_on with
  | _ m ih =>
    intro n h
    by_cases hm : m < 10 <;> by_cases hn : n < 10
    · rw [natDigits_small hm, natDigits_small hn] at h; simpa using h
    · rw [natDigits_small hm, natDigits_large hn] at h
      have := congrArg List.length h
      simp at this
      exact absurd this (natDigits_ne_nil (n / 10))
    · rw [natDigits_large hm, natDigits_small hn] at h
      have := congrArg List.length h
      simp at this
      exact absurd this (natDigits_ne_nil (m / 10))
    · rw [natDigits_large hm, natDigits_large hn] at h
      obtain ⟨h1, h2⟩ := List.append_inj' h (by simp)
      have e1 : m / 10 = n / 10 :=
        ih (m / 10) (Nat.div_lt_self (by omega) (by omega)) h1
      have e2 : m % 10 = n % 10 := by simpa using h2
      omega

theorem digitChar_inj_lt {a b : Nat} (ha : a < 10) (hb : b < 10)
    (h : Nat.digitChar a = Nat.digitChar b) : a = b := by
  have key : ∀ x y : Fin 10, Nat.digitChar x.val = Nat.digitChar y.val → x = y := by decide
  have := key ⟨a, ha⟩ ⟨b, hb⟩ h
  simpa using congrArg Fin.val this

theorem digits_map_inj : ∀ (l₁ l₂ : List Nat), (∀ d ∈ l₁, d < 10) → (∀ d ∈ l₂, d < 10) →
    l₁.map Nat.digitChar = l₂.map Nat.digitChar → l₁ = l₂ := by
  intro l₁
  induction l₁ with
  | nil => intro l₂ _ _ h; cases l₂ <;> simp_all
  | cons a t ih =>
    intro l₂ h₁ h₂ h
    cases l₂ with
    | nil => simp at h
    | cons b t₂ =>
      simp at h
      have hab : a = b :=
        digitChar_inj_lt (h₁ a (by simp)) (h₂ b (by simp)) h.1
      have := ih t₂ (fun d hd => h₁ d (by simp [hd])) (fun d hd => h₂ d (by simp [hd])) h.2
      simp [hab, this]

theorem natRepr_inj {m n : Nat} (h : natRepr m = natRepr n) : m = n := by
  have hd : (natDigits m).map Nat.digitChar = (natDigits n).map Nat.digitChar := by
    have := congrArg String.data h
    simpa [natRepr] using this
  exact natDigits_inj (digits_map_inj _ _ (natDigits_lt m) (natDigits_lt n) hd)

theorem makeMessageId_data (b : String) (s : Nat) :
    (makeMessageId b s).data = b.data ++ '-' :: (natRepr s).data := by
  simp [makeMessageId, String.data_append]

theorem makeMessageId_inj {b₁ b₂ : String} {s₁ s₂ : Nat} (hlen : b₁.length = b₂.length)
    (h : makeMessageId b₁ s₁ = makeMessageId b₂ s₂) : b₁ = b₂ ∧ s₁ = s₂ := by
  have hd := congrArg String.data h
  rw [makeMessageId_data, makeMessageId_data] at hd
  obtain ⟨h1, h2⟩ := List.append_inj hd hlen
  refine ⟨String.ext h1, ?_⟩
  have h3 : (natRepr s₁).data = (natRepr s₂).data := by simpa using h2
  exact natRepr_inj (String.ext h3)

theorem makeMessageId_inj_seq {b : String} {s₁ s₂ : Nat}
    (h : makeMessageId b s₁ = makeMessageId b s₂) : s₁ = s₂ :=
  (makeMessageId_inj rfl h).2

theorem fullSync_fst (ws : WorkerSession) (st : BlockingStatus) (opts : Option Rat)
    (resp : Option Payload) :
    (fullSyncMessageCallback true ws st opts resp).1 =
      ⟨ws.messageIdBase, ws.messageIdSeq + 1⟩ := by
  cases resp with
  | none => cases st <;> simp [fullSyncMessageCallback]
  | some r => by_cases h : r.interrupted <;> simp [fullSyncMessageCallback, h]

theorem fullSync_ids (ws : WorkerSession) (st : BlockingStatus) (opts : Option Rat)
    (resp : Option Payload) :
    chanReadIds (fullSyncMessageCallback true ws st opts resp).2.1 =
      [makeMessageId ws.messageIdBase (ws.messageIdSeq + 1)] := by
  cases resp with
  | none => cases st <;> simp [fullSyncMessageCallback, chanReadIds]
  | some r => by_cases h : r.interrupted <;> simp [fullSyncMessageCallback, chanReadIds, h]

theorem workerRun_ids : ∀ (rs : List BlockRequest) (b : String) (k : Nat),
    workerRun ⟨b, k⟩ rs =
      (⟨b, k + rs.length⟩,
       (List.range rs.length).map (fun i => makeMessageId b (k + i + 1))) := by
  intro rs
  induction rs with
  | nil => intro b k; simp [workerRun]
  | cons r rest ih =>
    intro b k
    simp only [workerRun]
    rw [fullSync_fst, fullSync_ids, ih b (k + 1)]
    simp only [List.length_cons, List.range_succ_eq_map, List.map_cons, List.map_map,
               Prod.mk.injEq, List.singleton_append, WorkerSession.mk.injEq]
    refine ⟨⟨trivial, by omega⟩, ?_⟩
    simp only [List.cons.injEq]
    refine ⟨by simp, ?_⟩
    apply List.map_congr_left
    intro i _
    simp only [Function.comp_apply]
    congr 1
    omega

theorem controllerNotify_session :
    ∀ (l : List Status), (∀ s ∈ l, s = .reading ∨ s = .sleeping) →
      ∀ c : SyncClient,
        (controllerNotify c l).messageIdSeq = c.messageIdSeq + l.length ∧
        (controllerNotify c l).messageIdBase = c.messageIdBase := by
  intro l
  induction l with
  | nil => intro _ c; simp [controllerNotify]
  | cons s t ih =>
    intro hl c
    have hstep : controllerNotify c (s :: t) =
        controllerNotify (SyncClient.syncMessageCallback true c s).1 t := rfl
    have ht := ih (fun x hx => hl x (by simp [hx]))
    rcases hl s (by simp) with h | h <;> subst h <;> rw [hstep] <;>
      rcases ht (SyncClient.syncMessageCallback true c _).1 with ⟨h1, h2⟩ <;>
      rw [h1, h2] <;> constructor <;>
      simp [SyncClient.syncMessageCallback] <;> omega

theorem callStart_ok {c : SyncClient} {base : String} (h : (c.callStart base).2 = none) :
    c.state = .idle ∧ (c.callStart base).1.messageIdBase = some base ∧
      (c.callStart base).1.messageIdSeq = 0 := by
  by_cases hs : c.state = .idle
  · simp [SyncClient.callStart, hs]
  · simp [SyncClient.callStart, hs] at h

/-! ## Claim theorems -/

/-- C1: `interrupt()` performs exactly one of four actions decided by the
first applicable case: (1) idle is a no-op with no effects; (2) in
`awaitingMessage` or `sleeping` it delivers `{interrupted: true}` on the
current correlation id, and a worker blocked on the channel receiving that
payload fails with `InterruptError`; (3) else with an interrupter installed
it only invokes the interrupter; (4) else it terminates the worker and
immediately spawns a replacement worker and proxy, after which `call`'s
idle precondition holds again. -/
theorem interrupt_four_tiers (c : SyncClient) :
    (c.state = .idle → c.interrupt = (c, [])) ∧
    (c.state = .awaitingMessage ∨ c.state = .sleeping →
      c.interrupt =
        ({c with state := .running},
         [Effect.channelWrite (makeMessageId (strCoe c.messageIdBase) c.messageIdSeq)
            ⟨none, true⟩]) ∧
      ∀ ws st opts, (fullSyncMessageCallback true ws st opts (some ⟨none, true⟩)).2.2 =
        Except.error ⟨.interruptError, ""⟩) ∧
    (c.state = .running → c.interrupter = true →
      c.interrupt = (c, [Effect.callInterrupter])) ∧
    (c.state = .running → c.interrupter = false →
      c.interrupt.1 =
        {c.reset with worker := some (c.workerGen + 1),
                      workerProxy := some (c.workerGen + 1),
                      workerGen := c.workerGen + 1} ∧
      c.interrupt.2 =
        (if c.interruptRejector then
           [Effect.rejectInFlight ⟨.interruptError, "Worker terminated"⟩]
         else []) ++
          [Effect.releaseProxy, Effect.terminateWorker, Effect.spawnWorker] ∧
      ∀ base, (c.interrupt.1.callStart base).2 = none) := by
  refine ⟨?_, ?_, ?_, ?_⟩
  · intro h
    simp [SyncClient.interrupt, h]
  · intro h
    constructor
    · rcases h with h | h <;>
        simp [SyncClient.interrupt, h, SyncClient.writeMessagePriv]
    · intro ws st opts
      simp [fullSyncMessageCallback]
  · intro h hi
    simp [SyncClient.interrupt, h, hi]
  · intro h hi
    refine ⟨?_, ?_, ?_⟩
    · simp [SyncClient.interrupt, h, hi, SyncClient.terminate, SyncClient.start,
            SyncClient.reset]
    · simp [SyncClient.interrupt, h, hi, SyncClient.terminate, SyncClient.start,
            SyncClient.reset]
    · intro base
      simp [SyncClient.interrupt, h, hi, SyncClient.terminate, SyncClient.start,
            SyncClient.reset, SyncClient.callStart]

/-- Witness for C1: the four tiers evaluated at concrete controllers. -/
theorem interrupt_four_tiers_witness :
    sampleIdle.interrupt = (sampleIdle, []) ∧
    sampleAwaiting.interrupt =
      ({sampleAwaiting with state := .running},
       [Effect.channelWrite (makeMessageId (strCoe sampleAwaiting.messageIdBase)
          sampleAwaiting.messageIdSeq) ⟨none, true⟩]) ∧
    sampleRunningInterrupter.interrupt =
      (sampleRunningInterrupter, [Effect.callInterrupter]) ∧
    (sampleRunningPlain.interrupt.1.callStart "b2").2 = none :=
  ⟨(interrupt_four_tiers sampleIdle).1 rfl,
   ((interrupt_four_tiers sampleAwaiting).2.1 (Or.inl rfl)).1,
   (interrupt_four_tiers sampleRunningInterrupter).2.2.1 rfl rfl,
   ((interrupt_four_tiers sampleRunningPlain).2.2.2 rfl rfl).2.2 "b2"⟩

/-- C9: interrupt leaves the session alive except in tier 3: a tier-1
interrupt sets state to `running` (not `idle`) and the interrupt payload is
the only effect; a tier-2 interrupt changes no controller field at all;
only a tier-3 interrupt resets state to `idle` synchronously via the
respawn. -/
theorem interrupt_frame (c : SyncClient) :
    (c.state = .awaitingMessage ∨ c.state = .sleeping →
      c.interrupt =
        ({c with state := .running},
         [Effect.channelWrite (makeMessageId (strCoe c.messageIdBase) c.messageIdSeq)
            ⟨none, true⟩]) ∧
      c.interrupt.1.state ≠ .idle) ∧
    (c.state = .running → c.interrupter = true →
      c.interrupt.1 = c ∧ c.interrupt.1.state ≠ .idle) ∧
    (c.state = .running → c.interrupter = false → c.interrupt.1.state = .idle) := by
  refine ⟨?_, ?_, ?_⟩
  · intro h
    rcases h with h | h <;>
      constructor <;>
      simp [SyncClient.interrupt, h, SyncClient.writeMessagePriv]
  · intro h hi
    constructor <;> simp [SyncClient.interrupt, h, hi]
  · intro h hi
    simp [SyncClient.interrupt, h, hi, SyncClient.terminate, SyncClient.start,
          SyncClient.reset]

/-- Witness for C9: the frame conditions at concrete controllers in each
tier. -/
theorem interrupt_frame_witness :
    sampleSleeping.interrupt.1.state ≠ .idle ∧
    sampleRunningInterrupter.interrupt.1 = sampleRunningInterrupter ∧
    sampleRunningPlain.interrupt.1.state = .idle :=
  ⟨((interrupt_frame sampleSleeping).1 (Or.inr rfl)).2,
   ((interrupt_frame sampleRunningInterrupter).2.1 rfl rfl).1,
   (interrupt_frame sampleRunningPlain).2.2 rfl rfl⟩

/-- C2: `call`'s contract: when the state is not idle it fails immediately
with the usage error and the controller record is untouched; whenever the
race settles (task value, task error, or interrupt-promise rejection) the
state is reset to idle and the session record (correlation base, interrupt
promise and rejector, queued-write resolver) is cleared; an
interrupt-promise rejection — produced only by `terminate`, always with an
`InterruptError` — becomes the rejection of `call`, and otherwise the task's
value or its own error propagates unchanged. -/
theorem call_contract (c : SyncClient) (base : String) (o : SyncClient.RaceOutcome) :
    (c.state ≠ .idle →
      c.callStart base =
        (c, some ⟨.plainError, "State is " ++ stateName c.state ++ ", not idle"⟩)) ∧
    ((c.callSettle o).1.state = .idle ∧
     (c.callSettle o).1.messageIdBase = none ∧
     (c.callSettle o).1.interruptPromise = false ∧
     (c.callSettle o).1.interruptRejector = false ∧
     (c.callSettle o).1.awaitingMessageResolve = false) ∧
    (∀ e, c.callSettle (.interruptReject e) = (c.reset, .error e)) ∧
    (∀ c' : SyncClient, c'.interruptRejector = true →
      c'.terminate.2 =
        [Effect.rejectInFlight ⟨.interruptError, "Worker terminated"⟩,
         Effect.releaseProxy, Effect.terminateWorker]) ∧
    (∀ v, c.callSettle (.taskValue v) = (c.reset, .ok v)) ∧
    (∀ e, c.callSettle (.taskError e) = (c.reset, .error e)) := by
  refine ⟨?_, ?_, ?_, ?_, ?_, ?_⟩
  · intro h
    simp [SyncClient.callStart, h]
  · simp [SyncClient.callSettle, SyncClient.reset]
  · intro e
    simp [SyncClient.callSettle]
  · intro c' h
    simp [SyncClient.terminate, h]
  · intro v
    simp [SyncClient.callSettle]
  · intro e
    simp [SyncClient.callSettle]

/-- Witness for C2: the precondition failure and the terminate rejection at
concrete controllers. -/
theorem call_contract_witness :
    sampleRunningPlain.callStart "b2" =
      (sampleRunningPlain,
       some ⟨.plainError, "State is " ++ stateName sampleRunningPlain.state ++ ", not idle"⟩) ∧
    sampleAwaiting.terminate.2 =
      [Effect.rejectInFlight ⟨.interruptError, "Worker terminated"⟩,
       Effect.releaseProxy, Effect.terminateWorker] :=
  ⟨(call_contract sampleRunningPlain "b2" (.taskValue .undef)).1 (by decide),
   (call_contract sampleIdle "b" (.taskValue .undef)).2.2.2.1 sampleAwaiting rfl⟩

/-- C4: `writeMessage(value)`: when state is idle it always fails with a
usage error; during an active session (truthy correlation base) not yet in
`awaitingMessage`, it suspends by queueing itself, and a second call while
one is queued fails with a usage error; once in `awaitingMessage` it
delivers `{message: value}` on the current correlation id and transitions
state back to `running` (as does a queued writer when it is released). -/
theorem writeMessage_contract (c : SyncClient) (m : JsValue) :
    (c.state = .idle →
      c.writeMessage m = .usageError ⟨.plainError, "No active call to send a message to."⟩) ∧
    (c.state ≠ .idle → truthyStr c.messageIdBase = true → c.state ≠ .awaitingMessage →
      (c.awaitingMessageResolve = false →
        c.writeMessage m = .suspend {c with awaitingMessageResolve := true}) ∧
      (c.awaitingMessageResolve = true →
        c.writeMessage m =
          .usageError
            ⟨.plainError, "Not waiting for message, and another write is already queued."⟩)) ∧
    (c.state = .awaitingMessage → truthyStr c.messageIdBase = true →
      c.writeMessage m =
        .wrote {c with state := .running}
          (Effect.channelWrite (makeMessageId (strCoe c.messageIdBase) c.messageIdSeq)
            ⟨some m, false⟩)) ∧
    (c.writeMessageResume m =
      ({c with awaitingMessageResolve := false, state := .running},
       Effect.channelWrite (makeMessageId (strCoe c.messageIdBase) c.messageIdSeq)
         ⟨some m, false⟩)) := by
  refine ⟨?_, ?_, ?_, ?_⟩
  · intro h
    simp [SyncClient.writeMessage, h]
  · intro h ht ha
    constructor
    · intro hq
      simp [SyncClient.writeMessage, h, ht, ha, hq]
    · intro hq
      simp [SyncClient.writeMessage, h, ht, ha, hq]
  · intro h ht
    simp [SyncClient.writeMessage, h, ht, SyncClient.writeMessagePriv]
  · simp [SyncClient.writeMessageResume, SyncClient.writeMessagePriv]

/-- Witness for C4: the four behaviours at concrete controllers. -/
theorem writeMessage_contract_witness :
    sampleIdle.writeMessage (.num 10) =
      .usageError ⟨.plainError, "No active call to send a message to."⟩ ∧
    sampleRunningPlain.writeMessage (.num 10) =
      .suspend {sampleRunningPlain with awaitingMessageResolve := true} ∧
    ({sampleRunningPlain with awaitingMessageResolve := true} : SyncClient).writeMessage
        (.num 10) =
      .usageError
        ⟨.plainError, "Not waiting for message, and another write is already queued."⟩ ∧
    sampleAwaiting.writeMessage (.num 10) =
      .wrote {sampleAwaiting with state := .running}
        (Effect.channelWrite (makeMessageId "b" 1) ⟨some (.num 10), false⟩) :=
  ⟨(writeMessage_contract sampleIdle (.num 10)).1 rfl,
   ((writeMessage_contract sampleRunningPlain (.num 10)).2.1 (by decide) rfl
      (by decide)).1 rfl,
   ((writeMessage_contract {sampleRunningPlain with awaitingMessageResolve := true}
      (.num 10)).2.1 (by decide) rfl (by decide)).2 rfl,
   (writeMessage_contract sampleAwaiting (.num 10)).2.2.1 rfl rfl⟩

/-- C5: the status callback is a pure step function of (session, status):
a notification whose session flag is cleared (it belongs to a session other
than the active one) is ignored and changes nothing; `reading` sets
`awaitingMessage`, advances the sequence number, and emits the release of a
queued write exactly when one is waiting; `sleeping` sets `sleeping` and
advances the sequence number; `slept` (a sleep resolved without
interruption) returns the state to `running`, and a read resolved without
interruption had already returned the state to `running` at the moment
`_writeMessage` delivered the message. -/
theorem status_callback_step (c : SyncClient) (status : Status) (p : Payload) :
    SyncClient.syncMessageCallback false c status = (c, []) ∧
    SyncClient.syncMessageCallback true c .reading =
      ({c with state := .awaitingMessage, messageIdSeq := c.messageIdSeq + 1},
       if c.awaitingMessageResolve then [Effect.releaseQueuedWrite] else []) ∧
    SyncClient.syncMessageCallback true c .sleeping =
      ({c with state := .sleeping, messageIdSeq := c.messageIdSeq + 1}, []) ∧
    SyncClient.syncMessageCallback true c .slept = ({c with state := .running}, []) ∧
    (c.writeMessagePriv p).1.state = .running := by
  refine ⟨?_, ?_, ?_, ?_, ?_⟩
  · simp [SyncClient.syncMessageCallback]
  · simp [SyncClient.syncMessageCallback]
  · simp [SyncClient.syncMessageCallback]
  · simp [SyncClient.syncMessageCallback]
  · simp [SyncClient.writeMessagePriv]

/-- C6: `extras.readMessage()`: with no channel it fails immediately with
`NoChannelError`, before any notification or blocking read; otherwise it
advances the sequence counter, notifies `reading`, and blocks on the
channel for the new correlation id with no timeout; a payload
`{interrupted: true}` makes it throw `InterruptError`, and a `{message}`
payload makes it return the message. -/
theorem readMessage_contract (ws : WorkerSession) (resp : Option Payload) (r : Payload) :
    readMessageExtra false ws resp = (ws, [], .error ⟨.noChannelError, ""⟩) ∧
    readMessageExtra true ws (some r) =
      (⟨ws.messageIdBase, ws.messageIdSeq + 1⟩,
       [WorkerEffect.notify .reading,
        WorkerEffect.chanRead (makeMessageId ws.messageIdBase (ws.messageIdSeq + 1)) none],
       if r.interrupted then .error ⟨.interruptError, ""⟩ else .ok r.message) := by
  constructor
  · simp [readMessageExtra, fullSyncMessageCallback]
  · by_cases h : r.interrupted <;>
      simp [readMessageExtra, fullSyncMessageCallback, BlockingStatus.toStatus, h]

/-- C7: `extras.syncSleep(ms)` with a non-positive or non-numeric duration
is a no-op: no notification, no sequence advance, immediate normal return,
for any channel and any delivered value; with a positive duration it
advances the sequence counter, notifies `sleeping`, and blocks on the
channel with timeout `ms`; when the timeout elapses with no value the sleep
completes normally and `slept` is notified, and when `{interrupted: true}`
arrives it throws `InterruptError`. -/
theorem syncSleep_contract (ws : WorkerSession) (ms : JsNum) :
    (ms.gtZero = false →
      ∀ (channel : Bool) (resp : Option Payload),
        syncSleep channel ws ms resp = (ws, [], .ok ())) ∧
    JsNum.gtZero .nan = false ∧
    (∀ x : Rat, x ≤ 0 → (JsNum.val x).gtZero = false) ∧
    (ms.gtZero = true →
      syncSleep true ws ms none =
        (⟨ws.messageIdBase, ws.messageIdSeq + 1⟩,
         [WorkerEffect.notify .sleeping,
          WorkerEffect.chanRead (makeMessageId ws.messageIdBase (ws.messageIdSeq + 1))
            ms.timeoutOpt,
          WorkerEffect.notify .slept],
         .ok ()) ∧
      syncSleep true ws ms (some ⟨none, true⟩) =
        (⟨ws.messageIdBase, ws.messageIdSeq + 1⟩,
         [WorkerEffect.notify .sleeping,
          WorkerEffect.chanRead (makeMessageId ws.messageIdBase (ws.messageIdSeq + 1))
            ms.timeoutOpt],
         .error ⟨.interruptError, ""⟩)) := by
  refine ⟨?_, rfl, ?_, ?_⟩
  · intro h channel resp
    simp [syncSleep, h]
  · intro x hx
    simp [JsNum.gtZero]
    exact hx
  · intro h
    constructor
    · simp [syncSleep, h, fullSyncMessageCallback, BlockingStatus.toStatus, Except.map]
    · simp [syncSleep, h, fullSyncMessageCallback, BlockingStatus.toStatus, Except.map]

/-- Witness for C7: a zero, a `NaN`, and a positive sleep evaluated
concretely. -/
theorem syncSleep_contract_witness :
    syncSleep true ⟨"b", 0⟩ (.val 0) none = (⟨"b", 0⟩, [], .ok ()) ∧
    syncSleep false ⟨"b", 0⟩ .nan (some ⟨none, true⟩) = (⟨"b", 0⟩, [], .ok ()) ∧
    (JsNum.val (-3)).gtZero = false ∧
    syncSleep true ⟨"b", 0⟩ (.val 500) none =
      (⟨"b", 1⟩,
       [WorkerEffect.notify .sleeping,
        WorkerEffect.chanRead (makeMessageId "b" 1) (JsNum.val 500).timeoutOpt,
        WorkerEffect.notify .slept],
       .ok ()) ∧
    syncSleep true ⟨"b", 0⟩ (.val 500) (some ⟨none, true⟩) =
      (⟨"b", 1⟩,
       [WorkerEffect.notify .sleeping,
        WorkerEffect.chanRead (makeMessageId "b" 1) (JsNum.val 500).timeoutOpt],
       .error ⟨.interruptError, ""⟩) :=
  ⟨(syncSleep_contract ⟨"b", 0⟩ (.val 0)).1 (by decide) true none,
   (syncSleep_contract ⟨"b", 0⟩ .nan).1 rfl false (some ⟨none, true⟩),
   (syncSleep_contract ⟨"b", 0⟩ (.val (-3))).2.2.1 (-3) (by norm_num),
   ((syncSleep_contract ⟨"b", 0⟩ (.val 500)).2.2.2 (by decide)).1,
   ((syncSleep_contract ⟨"b", 0⟩ (.val 500)).2.2.2 (by decide)).2⟩

/-- C8 as stated is false: a real `{message}` delivered during a sleep is
NOT treated identically to the timeout firing — the payload is consumed by
the channel read and no `slept` notification is sent, so the controller
observes different effects.  Concrete counterexample: a 5ms sleep receiving
`{message: 7}` versus the same sleep timing out. -/
theorem sleep_message_counterexample :
    syncSleep true ⟨"b", 0⟩ (.val 5) (some ⟨some (.num 7), false⟩) ≠
      syncSleep true ⟨"b", 0⟩ (.val 5) none := by
  intro h
  have hgt : (JsNum.val 5).gtZero = true := by
    simp [JsNum.gtZero]
  have h2 := congrArg (fun t => t.2.1.length) h
  simp [syncSleep, hgt, fullSyncMessageCallback, BlockingStatus.toStatus] at h2

/-- C8 amended: a real (non-interrupt) `{message}` delivered during
`syncSleep` still makes the sleep complete normally (no `InterruptError`),
with the same session-counter advance, but — unlike the timeout case — the
payload is consumed by the channel read and no `slept` notification is
emitted. -/
theorem sleep_message_amended (ws : WorkerSession) (x : Rat) (hx : 0 < x)
    (v : Option JsValue) :
    syncSleep true ws (.val x) (some ⟨v, false⟩) =
      (⟨ws.messageIdBase, ws.messageIdSeq + 1⟩,
       [WorkerEffect.notify .sleeping,
        WorkerEffect.chanRead (makeMessageId ws.messageIdBase (ws.messageIdSeq + 1))
          (some x)],
       .ok ()) ∧
    WorkerEffect.notify .slept ∉ (syncSleep true ws (.val x) (some ⟨v, false⟩)).2.1 := by
  have h : (JsNum.val x).gtZero = true := by
    simp [JsNum.gtZero]
    exact hx
  constructor
  · simp [syncSleep, h, fullSyncMessageCallback, BlockingStatus.toStatus, JsNum.timeoutOpt,
          Except.map]
  · simp [syncSleep, h, fullSyncMessageCallback, BlockingStatus.toStatus]

/-- Witness for C8 (amended): the 5ms sleep receiving `{message: 7}`
completes normally without a `slept` notification. -/
theorem sleep_message_amended_witness :
    syncSleep true ⟨"b", 0⟩ (.val 5) (some ⟨some (.num 7), false⟩) =
      (⟨"b", 1⟩,
       [WorkerEffect.notify .sleeping,
        WorkerEffect.chanRead (makeMessageId "b" 1) (some 5)],
       .ok ()) ∧
    WorkerEffect.notify .slept ∉
      (syncSleep true ⟨"b", 0⟩ (.val 5) (some ⟨some (.num 7), false⟩)).2.1 :=
  sleep_message_amended ⟨"b", 0⟩ 5 (by norm_num) (some (.num 7))

/-- C10: every `InterruptError` and `NoChannelError` carries a readonly
`type` property equal to its class name; the errors produced at each site
(no-channel failure, interrupted read/sleep, terminate's rejection of the
in-flight task) carry the corresponding tag; and `call` propagates a task
error or an interrupt rejection as its own rejection with the same error
object, hence the same tag. -/
theorem error_type_tags :
    (∀ m, (JsError.mk .interruptError m).type = some "InterruptError") ∧
    (∀ m, (JsError.mk .noChannelError m).type = some "NoChannelError") ∧
    (∀ (ws : WorkerSession) (st : BlockingStatus) (opts : Option Rat)
       (resp : Option Payload),
      (fullSyncMessageCallback false ws st opts resp).2.2 =
        Except.error ⟨.noChannelError, ""⟩) ∧
    (∀ (ws : WorkerSession) (st : BlockingStatus) (opts : Option Rat) (v : Option JsValue),
      (fullSyncMessageCallback true ws st opts (some ⟨v, true⟩)).2.2 =
        Except.error ⟨.interruptError, ""⟩) ∧
    (∀ c : SyncClient, c.interruptRejector = true →
      Effect.rejectInFlight ⟨.interruptError, "Worker terminated"⟩ ∈ c.terminate.2) ∧
    (∀ (c : SyncClient) (e : JsError),
      (c.callSettle (.taskError e)).2 = .error e ∧
      (c.callSettle (.interruptReject e)).2 = .error e) := by
  refine ⟨fun m => rfl, fun m => rfl, ?_, ?_, ?_, ?_⟩
  · intro ws st opts resp
    simp [fullSyncMessageCallback]
  · intro ws st opts v
    simp [fullSyncMessageCallback]
  · intro c h
    simp [SyncClient.terminate, h]
  · intro c e
    exact ⟨rfl, rfl⟩

/-- Witness for C10: the terminate rejection tag at a concrete controller
with an in-flight task. -/
theorem error_type_tags_witness :
    Effect.rejectInFlight ⟨.interruptError, "Worker terminated"⟩ ∈
      sampleRunningPlain.terminate.2 :=
  error_type_tags.2.2.2.2.1 sampleRunningPlain rfl

/-- C3: the correlation-id invariant.  Within one session started by a
successful `call` with base `base`: the worker's `i`-th blocking exchange
(1-based) blocks on `makeMessageId base i`, so the sequence numbers are
strictly increasing and no id is ever reused; after the controller
processes the `n`-th `reading`/`sleeping` notification, its current
correlation id (the one `_writeMessage` would write to) equals the id the
worker's `n`-th blocking call reads on; and since the base is fresh per
session, ids built from two distinct bases of equal length (`uuidv4`
values all have equal length) never coincide. -/
theorem correlation_id_invariant (c : SyncClient) (base : String)
    (hc : (c.callStart base).2 = none)
    (rs : List BlockRequest) (l : List Status)
    (hl : ∀ s ∈ l, s = .reading ∨ s = .sleeping)
    (hlen : l.length ≤ rs.length) :
    (workerRun ⟨base, 0⟩ rs).2 =
      (List.range rs.length).map (fun i => makeMessageId base (i + 1)) ∧
    (workerRun ⟨base, 0⟩ rs).2.Pairwise (· ≠ ·) ∧
    makeMessageId (strCoe (controllerNotify (c.callStart base).1 l).messageIdBase)
        (controllerNotify (c.callStart base).1 l).messageIdSeq
      = makeMessageId base l.length ∧
    (0 < l.length →
      (workerRun ⟨base, 0⟩ rs).2[l.length - 1]? = some (makeMessageId base l.length)) ∧
    (∀ (b₂ : String) (s₁ s₂ : Nat), base.length = b₂.length → base ≠ b₂ →
      makeMessageId base s₁ ≠ makeMessageId b₂ s₂) := by
  have hids : (workerRun ⟨base, 0⟩ rs).2 =
      (List.range rs.length).map (fun i => makeMessageId base (i + 1)) := by
    rw [workerRun_ids rs base 0]
    simp
  refine ⟨hids, ?_, ?_, ?_, ?_⟩
  · rw [hids]
    rw [List.pairwise_map]
    refine (List.pairwise_lt_range rs.length).imp ?_
    intro i j hij heq
    have := makeMessageId_inj_seq heq
    omega
  · obtain ⟨hidle, hbase, hseq⟩ := callStart_ok hc
    obtain ⟨h1, h2⟩ := controllerNotify_session l hl (c.callStart base).1
    rw [h1, h2, hbase, hseq, strCoe]
    rw [Nat.zero_add]
  · intro hpos
    rw [hids]
    rw [List.getElem?_map]
    rw [List.getElem?_range (by omega)]
    show some (makeMessageId base (l.length - 1 + 1)) = some (makeMessageId base l.length)
    congr 2
    omega
  · intro b₂ s₁ s₂ hblen hne heq
    exact hne (makeMessageId_inj hblen heq).1

/-- Witness for C3: the invariant at a concrete session (base `"b"`, a
read followed by a sleep, one notification processed). -/
theorem correlation_id_invariant_witness :
    (workerRun ⟨"b", 0⟩ sampleRequests).2 =
      (List.range sampleRequests.length).map (fun i => makeMessageId "b" (i + 1)) ∧
    makeMessageId
        (strCoe (controllerNotify (sampleIdle.callStart "b").1 [.reading]).messageIdBase)
        (controllerNotify (sampleIdle.callStart "b").1 [.reading]).messageIdSeq
      = makeMessageId "b" 1 ∧
    (workerRun ⟨"b", 0⟩ sampleRequests).2[0]? = some (makeMessageId "b" 1) ∧
    makeMessageId "b" 1 ≠ makeMessageId "c" 1 := by
  have h := correlation_id_invariant sampleIdle "b" rfl sampleRequests [.reading]
    (by decide) (by decide)
  exact ⟨h.1, h.2.2.1, h.2.2.2.1 (by decide), h.2.2.2.2 "c" 1 1 rfl (by decide)⟩

end Comsync
